import Mathlib

/-!
Shallow embedding of the sassy-fire library (auth façade and channel/message
façade over a hosted backend SDK), together with proofs of its specification
claims.

The auth façade is embedded from the fuller module snapshot
(`src/unnamed/part_001`, whose `decodeFireError` carries the full six-code
table; the older copy `src/firebase.ts` is embedded separately as
`decodeFireErrorLegacy`).  The channel/message façade is embedded from
`src/index.ts`.  Backend calls are modelled by passing their settled outcomes
as explicit arguments; each façade call is summarised by a `Trace` recording
the synchronous exception (if any), the number of backend requests issued,
and the continuation invocations in order.
-/

namespace SassyFire

/-- Normalized error shape (`HttpServiceError`) consumed by failure
continuations of the auth façade: backend code (or "unknown") plus a
human-readable message. -/
structure HttpServiceError where
  error : String
  message : String
deriving DecidableEq, Repr

/-- Modelled from the spec: the generic fallback message constant
`strings.DEFAULT_ERROR_MESSAGE`, supplied by the external shared-utilities
package (not part of this repository).  The claims compare against the
constant symbolically, so its concrete text is irrelevant. -/
def DEFAULT_ERROR_MESSAGE : String := "Something went wrong."

/-- Modelled from the spec: the `strings.DEFAULT_ERROR` constant from the
repository file `strings.ts`, which is not under src/; the channel façade
passes it to failure continuations. -/
def DEFAULT_ERROR : String := "Something went wrong."

/-- Shape of the raw error object received by `decodeFireError`: both the
`code` and `message` fields are optional (`none` models an absent /
`undefined` field). -/
structure FireErrorInput where
  code : Option String
  message : Option String
deriving DecidableEq, Repr

/-- JS truthiness of an optional string: `undefined` and the empty string are
falsy; every other string is truthy. -/
def strTruthy : Option String → Bool
  | none => false
  | some s => s ≠ ""

/-- The `{error: "unknown", message: DEFAULT_ERROR_MESSAGE}` result returned
by `decodeFireError` for a null or malformed error object. -/
def unknownFireError : HttpServiceError :=
  ⟨"unknown", DEFAULT_ERROR_MESSAGE⟩

/-- `decodeFireError` from the auth façade (fuller snapshot, lines 413-468):
a null error object or one with a falsy `code` or `message` yields the
"unknown" fallback; six recognized backend codes map to fixed messages; any
other code is passed through with the default message. -/
def decodeFireError : Option FireErrorInput → HttpServiceError
  | none => unknownFireError
  | some e =>
    match e.code, e.message with
    | some c, some m =>
      if c = "" ∨ m = "" then unknownFireError
      else if c = "auth/invalid-email" then
        ⟨c, "Invalid email address."⟩
      else if c = "auth/user-disabled" then
        ⟨c, "This user has been disabled."⟩
      else if c = "auth/user-not-found" then
        ⟨c, "This user does not exist."⟩
      else if c = "auth/wrong-password" then
        ⟨c, "Incorrect password."⟩
      else if c = "auth/email-already-in-use" then
        ⟨c, "This email is already in use."⟩
      else if c = "auth/popup-blocked" then
        ⟨c, "Please allow popups to continue."⟩
      else
        ⟨c, DEFAULT_ERROR_MESSAGE⟩
    | _, _ => unknownFireError

/-- `decodeFireError` as it appears in the older module copy
`src/firebase.ts` (lines 207-252): identical guards, but only four mapped
codes (no email-already-in-use and no popup-blocked cases). -/
def decodeFireErrorLegacy : Option FireErrorInput → HttpServiceError
  | none => unknownFireError
  | some e =>
    match e.code, e.message with
    | some c, some m =>
      if c = "" ∨ m = "" then unknownFireError
      else if c = "auth/invalid-email" then
        ⟨c, "Invalid email address."⟩
      else if c = "auth/user-disabled" then
        ⟨c, "This user has been disabled."⟩
      else if c = "auth/user-not-found" then
        ⟨c, "This user does not exist."⟩
      else if c = "auth/wrong-password" then
        ⟨c, "Incorrect password."⟩
      else
        ⟨c, DEFAULT_ERROR_MESSAGE⟩
    | _, _ => unknownFireError

/-- The six backend codes recognized by `decodeFireError`. -/
def knownFireCodes : List String :=
  ["auth/invalid-email", "auth/user-disabled", "auth/user-not-found",
   "auth/wrong-password", "auth/email-already-in-use", "auth/popup-blocked"]

/-! ### Session handle set and call traces -/

/-- Process-wide session handle set: the cached `firebaseApp`, `firestoreDb`
and `firestoreAuth` references.  Each `Bool` records JS truthiness of the
handle: `false` models the uninitialized (undefined) state before
`setupFirebase` runs. -/
structure SetupState where
  firebaseApp : Bool
  firestoreDb : Bool
  firestoreAuth : Bool
deriving DecidableEq, Repr

/-- `isFirebaseSetup`: all three handles are populated. -/
def isFirebaseSetup (st : SetupState) : Bool :=
  st.firebaseApp && st.firestoreDb && st.firestoreAuth

/-- Configuration bundle accepted by `setupFirebase` (all fields optional at
the type level). -/
structure FirebaseConfig where
  appId : Option String
  apiKey : Option String
  projectId : Option String
  authDomain : Option String
  measurementId : Option String
  storageBucket : Option String
  messagingSenderId : Option String
deriving DecidableEq, Repr

/-- `setupFirebase`: initializes the app and caches the database and auth
handles, leaving every handle populated. -/
def setupFirebase (_config : FirebaseConfig) : SetupState :=
  ⟨true, true, true⟩

/-- The message of the error thrown by `throwFirebaseSetupError`. -/
def setupErrorMessage : String :=
  "SassyFireError: You must call setupFirebase() before using any other functions."

/-- One continuation invocation: which arm of the callback pair fired, and
with what value.  `ε` is the failure payload type (a decoded
`HttpServiceError` in the auth façade, a plain string in the channel
façade), `α` the success payload type. -/
inductive CbEvent (ε α : Type) where
  | onSuccess (payload : α)
  | onFailure (err : ε)
deriving DecidableEq, Repr

/-- Observable behaviour of one façade call: the synchronous exception (if
one was thrown), the number of backend requests issued, and the continuation
invocations in order. -/
structure Trace (ε α : Type) where
  thrown : Option String
  backendCalls : Nat
  calls : List (CbEvent ε α)
deriving DecidableEq, Repr

/-- The trace of a call that throws the configuration-precondition error:
no backend request, no continuation. -/
def setupThrownTrace (ε α : Type) : Trace ε α :=
  ⟨some setupErrorMessage, 0, []⟩

/-- The trace of a call that throws `new Error(DEFAULT_ERROR_MESSAGE)`
synchronously (failed validation): no backend request, no continuation. -/
def validationThrownTrace (ε α : Type) : Trace ε α :=
  ⟨some DEFAULT_ERROR_MESSAGE, 0, []⟩

/-! ### Auth façade -/

/-- Opaque user record supplied by the backend SDK; the façade inspects only
the unique id (and never mutates the record). -/
structure User where
  uid : String
  displayName : String
deriving DecidableEq, Repr

/-- Result of a resolved popup sign-in: the signed-in user, plus whether
`GoogleAuthProvider.credentialFromResult` can extract a credential from the
result (`none` models a null credential). -/
structure SignInResult where
  user : User
  credential : Option Unit
deriving DecidableEq, Repr

/-- Settlement of a single backend promise: fulfilled with a value, or
rejected with an error object. -/
def FireOutcome (α : Type) := Except FireErrorInput α

/-- Shared settlement glue for the auth façade operations whose success
continuation receives the resolved user: `.then` fires the success arm with
the user, `.catch` logs and fires the failure arm with the decoded error. -/
def settleUser (outcome : FireOutcome User) : Trace HttpServiceError User :=
  match outcome with
  | .ok u => ⟨none, 1, [.onSuccess u]⟩
  | .error e => ⟨none, 1, [.onFailure (decodeFireError (some e))]⟩

/-- Shared settlement glue for the auth façade operations with no success
payload. -/
def settleUnit (outcome : FireOutcome Unit) : Trace HttpServiceError Unit :=
  match outcome with
  | .ok _ => ⟨none, 1, [.onSuccess ()]⟩
  | .error e => ⟨none, 1, [.onFailure (decodeFireError (some e))]⟩

/-- `loginWithGoogle` (auth façade): after the setup check, issues the popup
sign-in.  On resolution it extracts the credential from the result; a null
credential throws `new Error(DEFAULT_ERROR_MESSAGE)` inside the `.then`, so
the chain rejects with an error object carrying a message but no code, and
the `.catch` fires the failure arm with its decoded form.  On rejection the
failure arm receives the decoded backend error. -/
def loginWithGoogle (st : SetupState) (popup : FireOutcome SignInResult) :
    Trace HttpServiceError User :=
  if isFirebaseSetup st = false then setupThrownTrace _ _
  else
    match popup with
    | .ok r =>
      match r.credential with
      | some _ => ⟨none, 1, [.onSuccess r.user]⟩
      | none =>
        ⟨none, 1,
         [.onFailure (decodeFireError (some ⟨none, some DEFAULT_ERROR_MESSAGE⟩))]⟩
    | .error e => ⟨none, 1, [.onFailure (decodeFireError (some e))]⟩

/-- `loginWithEmail`: after the setup check, one sign-in call; success fires
with the resolved user credential user, failure with the decoded error. -/
def loginWithEmail (st : SetupState) (_email _password : String)
    (signIn : FireOutcome User) : Trace HttpServiceError User :=
  if isFirebaseSetup st = false then setupThrownTrace _ _
  else settleUser signIn

/-- `loginAnonymously`: after the setup check, one anonymous sign-in call. -/
def loginAnonymously (st : SetupState) (signIn : FireOutcome User) :
    Trace HttpServiceError User :=
  if isFirebaseSetup st = false then setupThrownTrace _ _
  else settleUser signIn

/-- `logout`: after the setup check, one sign-out call; success fires with
no payload. -/
def logout (st : SetupState) (signOutResult : FireOutcome Unit) :
    Trace HttpServiceError Unit :=
  if isFirebaseSetup st = false then setupThrownTrace _ _
  else settleUnit signOutResult

/-- `registerWithEmail`: after the setup check, one account-creation call. -/
def registerWithEmail (st : SetupState) (_email _password : String)
    (create : FireOutcome User) : Trace HttpServiceError User :=
  if isFirebaseSetup st = false then setupThrownTrace _ _
  else settleUser create

/-- The `type` parameter of `sendMail`. -/
inductive MailType where
  | verification
  | passwordReset
deriving DecidableEq, Repr

/-- `sendMail`: after the setup check, sends a verification email when
`type` is "verification" and a user is signed in, or a password-reset email
when `type` is "password-reset".  With `type` "verification" and no current
user, neither branch runs: no backend call is issued and no continuation
fires. -/
def sendMail (st : SetupState) (currentUser : Option User) (t : MailType)
    (send : FireOutcome Unit) : Trace HttpServiceError Unit :=
  if isFirebaseSetup st = false then setupThrownTrace _ _
  else
    match t, currentUser with
    | .verification, some _ => settleUnit send
    | .verification, none => ⟨none, 0, []⟩
    | .passwordReset, _ => settleUnit send

/-- `deleteUser`: after the setup check, throws when no user is signed in,
otherwise one account-deletion call. -/
def deleteUser (st : SetupState) (currentUser : Option User)
    (del : FireOutcome Unit) : Trace HttpServiceError Unit :=
  if isFirebaseSetup st = false then setupThrownTrace _ _
  else
    match currentUser with
    | none => validationThrownTrace _ _
    | some _ => settleUnit del

/-- An auth-state transition observed by the persistent listener. -/
inductive AuthEvent where
  | signedIn (u : User)
  | signedOut
deriving DecidableEq, Repr

/-- A routed auth-state callback invocation. -/
inductive ObserveCb where
  | onLogin (u : User)
  | onLogout
deriving DecidableEq, Repr

/-- Observable behaviour of `observeUser`: the synchronous exception (if
any), whether the listener was registered, and the callbacks routed for a
given sequence of auth-state transitions. -/
structure ObserveTrace where
  thrown : Option String
  registered : Bool
  callbacks : List ObserveCb
deriving DecidableEq, Repr

/-- `observeUser`: after the setup check, registers a persistent auth-state
listener routing each transition to `onLogin` (with the user) or
`onLogout`. -/
def observeUser (st : SetupState) (events : List AuthEvent) : ObserveTrace :=
  if isFirebaseSetup st = false then ⟨some setupErrorMessage, false, []⟩
  else
    ⟨none, true,
     events.map fun e =>
       match e with
       | .signedIn u => .onLogin u
       | .signedOut => .onLogout⟩

/-- A settled promise together with the event-loop tick at which it settled
(used where the relative settlement order of two promises matters). -/
inductive Settled (α : Type) where
  | fulfilled (t : Nat) (a : α)
  | rejected (t : Nat) (e : FireErrorInput)
deriving DecidableEq, Repr

/-- Whether a settled promise fulfilled. -/
def Settled.isFulfilled {α : Type} : Settled α → Bool
  | .fulfilled _ _ => true
  | .rejected _ _ => false

/-- `Promise.all` on two settled promises (external SDK semantics): it
fulfills once both do, and otherwise rejects with the error of the earliest
rejection; a tie resolves to the first promise, matching deterministic
single-threaded settlement order. -/
def promiseAll2 (p q : Settled Unit) : Settled Unit :=
  match p, q with
  | .fulfilled t1 _, .fulfilled t2 _ => .fulfilled (max t1 t2) ()
  | .rejected t1 e1, .fulfilled _ _ => .rejected t1 e1
  | .fulfilled _ _, .rejected t2 e2 => .rejected t2 e2
  | .rejected t1 e1, .rejected t2 e2 =>
    if t2 < t1 then .rejected t2 e2 else .rejected t1 e1

/-- Formalisation of the claim phrase "whichever sub-operation rejected
first": the error of the earliest rejection among the two settled promises,
`none` when neither rejected (ties resolve to the first promise). -/
def firstRejectionErr (p q : Settled Unit) : Option FireErrorInput :=
  match p, q with
  | .fulfilled _ _, .fulfilled _ _ => none
  | .rejected _ e1, .fulfilled _ _ => some e1
  | .fulfilled _ _, .rejected _ e2 => some e2
  | .rejected t1 e1, .rejected t2 e2 =>
    if t2 < t1 then some e2 else some e1

/-- Settlement glue shared by the branches of `setCredentials`: the chained
`.then(onSuccess)` / `.catch(onCatch)` pair, where `onCatch` logs and fires
the failure arm with the decoded error.  `n` is the number of backend update
requests the branch issued. -/
def settleCredentialUpdate (n : Nat) (outcome : Settled Unit) :
    Trace HttpServiceError Unit :=
  match outcome with
  | .fulfilled _ _ => ⟨none, n, [.onSuccess ()]⟩
  | .rejected _ e => ⟨none, n, [.onFailure (decodeFireError (some e))]⟩

/-- `setCredentials`: after the setup check, throws when neither an email
nor a password is provided (JS truthiness) or when no user is signed in.
With both provided it issues both update calls and joins them with
`Promise.all`; with exactly one provided it issues that single update. -/
def setCredentials (st : SetupState) (currentUser : Option User)
    (email password : Option String)
    (emailUpdate passwordUpdate : Settled Unit) : Trace HttpServiceError Unit :=
  if isFirebaseSetup st = false then setupThrownTrace _ _
  else if strTruthy email = false ∧ strTruthy password = false then
    validationThrownTrace _ _
  else
    match currentUser with
    | none => validationThrownTrace _ _
    | some _ =>
      if strTruthy email ∧ strTruthy password then
        settleCredentialUpdate 2 (promiseAll2 emailUpdate passwordUpdate)
      else if strTruthy email then
        settleCredentialUpdate 1 emailUpdate
      else
        settleCredentialUpdate 1 passwordUpdate

/-! ### Channel/message façade -/

/-- Membership metadata stored under a member id inside a channel document,
including the join timestamp. -/
structure ChannelUser where
  uid : String
  name : String
  addedAt : Nat
deriving DecidableEq, Repr

/-- Modelled from the spec: `getChannelUserFromUser` from the repository
file `userConverter.ts`, which is not under src/.  It builds the membership
entry recorded for a joining user, metadata including the join timestamp. -/
def getChannelUserFromUser (u : User) (now : Nat) : ChannelUser :=
  ⟨u.uid, u.displayName, now⟩

/-- A channel document: channel identity plus the member map
(member id mapped to membership metadata). -/
structure Channel where
  id : String
  users : List (String × ChannelUser)
deriving DecidableEq, Repr

/-- A message document: content is caller-supplied and opaque; `createdAt`
is the creation timestamp. -/
structure Message where
  id : String
  text : String
  createdAt : Nat
deriving DecidableEq, Repr

/-- A raw document as returned by the database: either a well-shaped channel
document or something else. -/
inductive ChannelDoc where
  | channel (c : Channel)
  | malformed
deriving DecidableEq, Repr

/-- Modelled from the spec: `isChannel` from the repository file `utils.ts`,
which is not under src/ — the channel shape check applied to raw document
data (`none` models `undefined` data of an absent document). -/
def isChannel : Option ChannelDoc → Bool
  | some (.channel _) => true
  | _ => false

/-- Observable behaviour of a channel-document operation: the number of
write requests issued, the continuation invocations in order, and the
contents of the channel document afterwards.  The success payload is
`some true` for the membership no-op (`onSuccess(true)`) and `none` for a
write confirmation (`updateDoc` resolves with `undefined`). -/
structure DocTrace where
  writes : Nat
  calls : List (CbEvent String (Option Bool))
  store : Option ChannelDoc
deriving DecidableEq, Repr

/-- `addUserToGlobalChannel`: fetches the well-known global channel
document.  The fetch promise carries no rejection handler, so a rejected
fetch ends the call with neither continuation invoked.  On a well-shaped
channel (the `isChannel` guard): an existing membership key succeeds as a
no-op; otherwise an `updateDoc` adds the membership entry and the call
succeeds on write confirmation or fails with the default error.  A document
failing the shape check fails the call.  `store` is the current contents of
the global channel document, `fetchOk` and `writeOk` the outcomes of the
fetch and of the write. -/
def addUserToGlobalChannel (user : User) (now : Nat)
    (store : Option ChannelDoc) (fetchOk writeOk : Bool) : DocTrace :=
  if fetchOk = false then ⟨0, [], store⟩
  else
    match store with
    | some (.channel c) =>
      if (c.users.lookup user.uid).isSome then ⟨0, [.onSuccess (some true)], store⟩
      else if writeOk then
        ⟨1, [.onSuccess none],
         some (.channel ⟨c.id, (user.uid, getChannelUserFromUser user now) :: c.users⟩)⟩
      else ⟨1, [.onFailure DEFAULT_ERROR], store⟩
    | _ => ⟨0, [.onFailure DEFAULT_ERROR], store⟩

/-- Parses every raw document through the channel shape check: `some` of the
parsed channels when every document is well-shaped, `none` as soon as any
document fails the check. -/
def extractChannels : List (Option ChannelDoc) → Option (List Channel)
  | [] => some []
  | d :: ds =>
    match d with
    | some (.channel c) => (extractChannels ds).map (fun cs => c :: cs)
    | _ => none

/-- Modelled from the spec: `parseChannelsFromDocs` from the repository file
`utils.ts`, which is not under src/ — a document failing the channel shape
check is a fatal decode error for the whole call; otherwise the success arm
receives every parsed channel. -/
def parseChannelsFromDocs (docs : List (Option ChannelDoc)) :
    List (CbEvent String (List Channel)) :=
  match extractChannels docs with
  | some cs => [.onSuccess cs]
  | none => [.onFailure DEFAULT_ERROR]

/-- `getUserChannels`: queries the channel collection for documents whose
membership key for the user is present and non-empty, then hands the
returned documents to `parseChannelsFromDocs`; a rejected query fires the
failure arm with the default error. -/
def getUserChannels (fetch : Except String (List (Option ChannelDoc))) :
    Trace String (List Channel) :=
  match fetch with
  | .ok docs => ⟨none, 1, parseChannelsFromDocs docs⟩
  | .error _ => ⟨none, 1, [.onFailure DEFAULT_ERROR]⟩

/-- A raw document from a message sub-collection: either a well-shaped
message or something else. -/
inductive MsgDoc where
  | message (m : Message)
  | malformed
deriving DecidableEq, Repr

/-- Parses every raw document through the message shape check: `some` of the
parsed messages when every document is well-shaped, `none` as soon as any
document fails the check. -/
def extractMessages : List MsgDoc → Option (List Message)
  | [] => some []
  | d :: ds =>
    match d with
    | .message m => (extractMessages ds).map (fun ms => m :: ms)
    | _ => none

/-- Modelled from the spec: `parseMessagesFromDocs` from the repository file
`utils.ts`, which is not under src/ — every snapshot or fetch result is
re-parsed in full through the message shape check, the success arm receiving
the full parsed set and any malformed document failing the whole call. -/
def parseMessagesFromDocs (docs : List MsgDoc) :
    List (CbEvent String (List Message)) :=
  match extractMessages docs with
  | some ms => [.onSuccess ms]
  | none => [.onFailure DEFAULT_ERROR]

/-- `getChannelMessages`: fetches all documents of the message
sub-collection (no ordering applied) and hands them to
`parseMessagesFromDocs`; a rejected fetch fires the failure arm. -/
def getChannelMessages (fetch : Except String (List MsgDoc)) :
    Trace String (List Message) :=
  match fetch with
  | .ok docs => ⟨none, 1, parseMessagesFromDocs docs⟩
  | .error _ => ⟨none, 1, [.onFailure DEFAULT_ERROR]⟩

/-- `sendMessageToChannel`: appends one document to the message
sub-collection; the payload is not validated. -/
def sendMessageToChannel (add : Except String Unit) : Trace String Unit :=
  match add with
  | .ok _ => ⟨none, 1, [.onSuccess ()]⟩
  | .error _ => ⟨none, 1, [.onFailure DEFAULT_ERROR]⟩

/-- The query registered by `subscribeUserToChannel` on the message
sub-collection: ordered by `createdAt` (ascending by default) with a
`createdAt >= lowerBound` where-clause. -/
structure MessagesQuery where
  lowerBound : Nat
deriving DecidableEq, Repr

/-- Comparison used to order query results by creation time. -/
def byCreatedAt (a b : Message) : Prop :=
  a.createdAt ≤ b.createdAt

instance : DecidableRel byCreatedAt := fun a b =>
  inferInstanceAs (Decidable (a.createdAt ≤ b.createdAt))

instance : IsTotal Message byCreatedAt :=
  ⟨fun a b => Nat.le_total a.createdAt b.createdAt⟩

instance : IsTrans Message byCreatedAt :=
  ⟨fun _ _ _ hab hbc => Nat.le_trans hab hbc⟩

/-- Backend evaluation of the registered query (external SDK semantics):
the documents of the collection satisfying the where-clause, ordered by the
orderBy field ascending. -/
def evalMessagesQuery (q : MessagesQuery) (collection : List Message) :
    List Message :=
  (collection.filter fun m => q.lowerBound ≤ m.createdAt).insertionSort byCreatedAt

/-- A registered real-time subscription: the query it listens on and the
snapshot handler, which receives the full current result set of the query on
every change notification (external SDK semantics of the listener) and
re-parses it for the continuation pair. -/
structure Subscription where
  queryDesc : MessagesQuery
  handler : List MsgDoc → List (CbEvent String (List Message))

/-- `subscribeUserToChannel`: builds the message query bounded below by the
subscribing user's join timestamp for the channel
(`channel.users[user.uid].addedAt`) and registers the snapshot listener,
whose callback hands every delivered snapshot to `parseMessagesFromDocs`.
Reading `.addedAt` of a missing member entry throws a TypeError. -/
def subscribeUserToChannel (user : User) (channel : Channel) :
    Except String Subscription :=
  match channel.users.lookup user.uid with
  | none => .error "TypeError: cannot read addedAt of undefined"
  | some cu => .ok ⟨⟨cu.addedAt⟩, parseMessagesFromDocs⟩

/-- The module-level subscription slot `let unsubscribe: Unsubscribe`,
which starts uninitialized. -/
def initialUnsubscribeSlot : Option (Unit → Unit) := none

/-- `unsubscribeFromChannel`: invokes the single retained unsubscribe
capability.  When the slot is unset, the invoked value is `undefined` and
the call throws a TypeError instead of succeeding. -/
def unsubscribeFromChannel (slot : Option (Unit → Unit)) :
    Except String Unit :=
  match slot with
  | none => .error "TypeError: unsubscribe is not a function"
  | some f => .ok (f ())

/-! ### Helper lemmas -/

theorem settleUser_length (o : FireOutcome User) :
    (settleUser o).calls.length = 1 := by
  cases o <;> rfl

theorem settleUnit_length (o : FireOutcome Unit) :
    (settleUnit o).calls.length = 1 := by
  cases o <;> rfl

theorem settleCredentialUpdate_length (n : Nat) (o : Settled Unit) :
    (settleCredentialUpdate n o).calls.length = 1 := by
  cases o <;> rfl

theorem extractMessages_map_message (l : List Message) :
    extractMessages (l.map MsgDoc.message) = some l := by
  induction l with
  | nil => rfl
  | cons m ms ih => simp [extractMessages, ih]

theorem extractChannels_isSome_iff (docs : List (Option ChannelDoc)) :
    (extractChannels docs).isSome = true ↔ ∀ d ∈ docs, isChannel d = true := by
  induction docs with
  | nil => simp [extractChannels]
  | cons d ds ih =>
    cases d with
    | none => simp [extractChannels, isChannel]
    | some cd =>
      cases cd with
      | channel c => simp [extractChannels, isChannel, ih]
      | malformed => simp [extractChannels, isChannel]

/-! ### Claim theorems -/

/-- C1: for every input error object, `decodeFireError` maps each of the
six listed backend codes (invalid email, disabled user, user not found,
wrong password, email already in use, popup blocked) to its fixed
human-readable message; any unrecognized code is passed through as
`{error: code, message: defaultMessage}`; and a null or malformed error
object (a missing code or message field) yields
`{error: "unknown", message: defaultMessage}`. -/
theorem decodeFireError_code_table (m : String) (hm : m ≠ "") :
    decodeFireError (some ⟨some "auth/invalid-email", some m⟩) =
      ⟨"auth/invalid-email", "Invalid email address."⟩ ∧
    decodeFireError (some ⟨some "auth/user-disabled", some m⟩) =
      ⟨"auth/user-disabled", "This user has been disabled."⟩ ∧
    decodeFireError (some ⟨some "auth/user-not-found", some m⟩) =
      ⟨"auth/user-not-found", "This user does not exist."⟩ ∧
    decodeFireError (some ⟨some "auth/wrong-password", some m⟩) =
      ⟨"auth/wrong-password", "Incorrect password."⟩ ∧
    decodeFireError (some ⟨some "auth/email-already-in-use", some m⟩) =
      ⟨"auth/email-already-in-use", "This email is already in use."⟩ ∧
    decodeFireError (some ⟨some "auth/popup-blocked", some m⟩) =
      ⟨"auth/popup-blocked", "Please allow popups to continue."⟩ ∧
    (∀ c : String, c ≠ "" → c ∉ knownFireCodes →
      decodeFireError (some ⟨some c, some m⟩) = ⟨c, DEFAULT_ERROR_MESSAGE⟩) ∧
    decodeFireError none = ⟨"unknown", DEFAULT_ERROR_MESSAGE⟩ ∧
    (∀ c mm : Option String, c = none ∨ mm = none →
      decodeFireError (some ⟨c, mm⟩) = ⟨"unknown", DEFAULT_ERROR_MESSAGE⟩) := by
  refine ⟨?_, ?_, ?_, ?_, ?_, ?_, ?_, rfl, ?_⟩
  · simp [decodeFireError, hm]
  · simp [decodeFireError, hm]
  · simp [decodeFireError, hm]
  · simp [decodeFireError, hm]
  · simp [decodeFireError, hm]
  · simp [decodeFireError, hm]
  · intro c hc hmem
    simp only [knownFireCodes, List.mem_cons, List.not_mem_nil, or_false,
      not_or] at hmem
    obtain ⟨h1, h2, h3, h4, h5, h6⟩ := hmem
    simp [decodeFireError, hc, hm, h1, h2, h3, h4, h5, h6]
  · rintro c mm (rfl | rfl)
    · cases mm <;> simp [decodeFireError, unknownFireError]
    · cases c <;> simp [decodeFireError, unknownFireError]

/-- Witness for C1 at a concrete recognized code with a concrete truthy
message. -/
theorem decodeFireError_code_table_witness :
    decodeFireError (some ⟨some "auth/wrong-password", some "boom"⟩) =
      ⟨"auth/wrong-password", "Incorrect password."⟩ :=
  (decodeFireError_code_table "boom" (by decide)).2.2.2.1

/-- C9: `decodeFireError` returns the "unknown" fallback whenever the error
object is missing its code field or its message field, so a recognized
backend code accompanied by no message string decodes to "unknown" rather
than to that code's fixed message (and the older module copy behaves
identically on this guard). -/
theorem decodeFireError_missing_field_unknown (c m : Option String)
    (h : c = none ∨ m = none) :
    decodeFireError (some ⟨c, m⟩) = ⟨"unknown", DEFAULT_ERROR_MESSAGE⟩ ∧
    decodeFireErrorLegacy (some ⟨c, m⟩) = ⟨"unknown", DEFAULT_ERROR_MESSAGE⟩ := by
  rcases h with rfl | rfl
  · cases m <;> simp [decodeFireError, decodeFireErrorLegacy, unknownFireError]
  · cases c <;> simp [decodeFireError, decodeFireErrorLegacy, unknownFireError]

/-- Witness for C9: a recognized backend code with a missing message string
is reported as "unknown". -/
theorem decodeFireError_missing_field_unknown_witness :
    decodeFireError (some ⟨some "auth/invalid-email", none⟩) =
      ⟨"unknown", DEFAULT_ERROR_MESSAGE⟩ :=
  (decodeFireError_missing_field_unknown (some "auth/invalid-email") none
    (Or.inr rfl)).1

/-- C10: when the popup sign-in promise resolves but no credential can be
extracted from the result, `loginWithGoogle` does not invoke the success
continuation; the failure continuation fires instead with the generic
decoded error `{error: "unknown", message: defaultMessage}`, because the
internally thrown `Error` carries no backend code. -/
theorem loginWithGoogle_null_credential_unknown (st : SetupState) (u : User)
    (hs : isFirebaseSetup st = true) :
    loginWithGoogle st (Except.ok ⟨u, none⟩) =
      ⟨none, 1, [CbEvent.onFailure ⟨"unknown", DEFAULT_ERROR_MESSAGE⟩]⟩ := by
  simp [loginWithGoogle, hs, decodeFireError, unknownFireError]

/-- Witness for C10 at a fully populated handle set and a concrete user. -/
theorem loginWithGoogle_null_credential_unknown_witness :
    loginWithGoogle ⟨true, true, true⟩ (Except.ok ⟨⟨"u1", "Ann"⟩, none⟩) =
      ⟨none, 1, [CbEvent.onFailure ⟨"unknown", DEFAULT_ERROR_MESSAGE⟩]⟩ :=
  loginWithGoogle_null_credential_unknown ⟨true, true, true⟩ ⟨"u1", "Ann"⟩ rfl

/-- C7: invoking `unsubscribeFromChannel` while no subscription is active
applies the unset capability slot, which is a thrown TypeError — not a
silent success. -/
theorem unsubscribe_unset_slot_errors :
    unsubscribeFromChannel initialUnsubscribeSlot =
      Except.error "TypeError: unsubscribe is not a function" := rfl

/-- C2: for every auth façade function other than setup, a call made while
the session handle set is not fully populated (before `setupFirebase`)
throws the configuration-precondition error synchronously, issues no
backend call, and invokes neither continuation. -/
theorem facade_before_setup_throws (st : SetupState)
    (h : isFirebaseSetup st = false) :
    (∀ popup, loginWithGoogle st popup = ⟨some setupErrorMessage, 0, []⟩) ∧
    (∀ e p s, loginWithEmail st e p s = ⟨some setupErrorMessage, 0, []⟩) ∧
    (∀ s, loginAnonymously st s = ⟨some setupErrorMessage, 0, []⟩) ∧
    (∀ s, logout st s = ⟨some setupErrorMessage, 0, []⟩) ∧
    (∀ e p s, registerWithEmail st e p s = ⟨some setupErrorMessage, 0, []⟩) ∧
    (∀ cu t s, sendMail st cu t s = ⟨some setupErrorMessage, 0, []⟩) ∧
    (∀ cu e p pe pp,
      setCredentials st cu e p pe pp = ⟨some setupErrorMessage, 0, []⟩) ∧
    (∀ cu s, deleteUser st cu s = ⟨some setupErrorMessage, 0, []⟩) ∧
    (∀ events, observeUser st events = ⟨some setupErrorMessage, false, []⟩) := by
  refine ⟨?_, ?_, ?_, ?_, ?_, ?_, ?_, ?_, ?_⟩ <;>
    intros <;>
      simp [loginWithGoogle, loginWithEmail, loginAnonymously, logout,
        registerWithEmail, sendMail, setCredentials, deleteUser, observeUser,
        setupThrownTrace, h]

/-- Witness for C2: a call with an unpopulated handle set throws and does
nothing else. -/
theorem facade_before_setup_throws_witness :
    loginWithGoogle ⟨false, false, false⟩ (Except.error ⟨none, none⟩) =
      ⟨some setupErrorMessage, 0, []⟩ :=
  (facade_before_setup_throws ⟨false, false, false⟩ rfl).1
    (Except.error ⟨none, none⟩)

/-- C3: for `setCredentials` with both an email and a password (both
truthy), the success continuation fires iff both the email update and the
password update succeed; if either sub-operation fails, only the failure
continuation fires, receiving the decoded error of whichever sub-operation
rejected first. -/
theorem setCredentials_both_updates (st : SetupState) (u : User)
    (email password : Option String) (p q : Settled Unit)
    (hs : isFirebaseSetup st = true)
    (he : strTruthy email = true) (hp : strTruthy password = true) :
    ((setCredentials st (some u) email password p q).calls =
        [CbEvent.onSuccess ()] ↔
      p.isFulfilled = true ∧ q.isFulfilled = true) ∧
    (∀ e : FireErrorInput, firstRejectionErr p q = some e →
      (setCredentials st (some u) email password p q).calls =
        [CbEvent.onFailure (decodeFireError (some e))]) := by
  have hcred : setCredentials st (some u) email password p q =
      settleCredentialUpdate 2 (promiseAll2 p q) := by
    simp [setCredentials, hs, he, hp]
  rw [hcred]
  cases p with
  | fulfilled t1 a =>
    cases q with
    | fulfilled t2 b =>
      simp [promiseAll2, settleCredentialUpdate, firstRejectionErr,
        Settled.isFulfilled]
    | rejected t2 e2 =>
      simp [promiseAll2, settleCredentialUpdate, firstRejectionErr,
        Settled.isFulfilled]
  | rejected t1 e1 =>
    cases q with
    | fulfilled t2 b =>
      simp [promiseAll2, settleCredentialUpdate, firstRejectionErr,
        Settled.isFulfilled]
    | rejected t2 e2 =>
      by_cases hlt : t2 < t1 <;>
        simp [promiseAll2, settleCredentialUpdate, firstRejectionErr,
          Settled.isFulfilled, hlt]

/-- Witness for C3: a rejected email update joined with a fulfilled
password update fires only the failure continuation with the decoded error
of the rejection. -/
theorem setCredentials_both_updates_witness :
    (setCredentials ⟨true, true, true⟩ (some ⟨"u1", "Ann"⟩) (some "a@b.c")
        (some "pw") (.rejected 5 ⟨some "auth/wrong-password", some "x"⟩)
        (.fulfilled 1 ())).calls =
      [CbEvent.onFailure
        (decodeFireError (some ⟨some "auth/wrong-password", some "x"⟩))] :=
  (setCredentials_both_updates ⟨true, true, true⟩ ⟨"u1", "Ann"⟩ (some "a@b.c")
      (some "pw") (.rejected 5 ⟨some "auth/wrong-password", some "x"⟩)
      (.fulfilled 1 ()) rfl rfl rfl).2
    ⟨some "auth/wrong-password", some "x"⟩ rfl

/-- C5: joining the global channel is idempotent per user.  The first call
with a user absent from the member map issues one write, adds the
membership entry (id mapped to metadata including the join timestamp) and
fires the success continuation on write confirmation; a second call with
the same user detects the existing membership key and fires the success
continuation with no write issued and the document unchanged, regardless of
the write outcome environment. -/
theorem addUserToGlobalChannel_idempotent (c : Channel) (user : User)
    (now now2 : Nat) (w2 : Bool)
    (h : c.users.lookup user.uid = none) :
    (addUserToGlobalChannel user now (some (.channel c)) true true).writes = 1 ∧
    (addUserToGlobalChannel user now (some (.channel c)) true true).calls =
      [CbEvent.onSuccess none] ∧
    (addUserToGlobalChannel user now (some (.channel c)) true true).store =
      some (.channel
        ⟨c.id, (user.uid, getChannelUserFromUser user now) :: c.users⟩) ∧
    (addUserToGlobalChannel user now2
        (addUserToGlobalChannel user now (some (.channel c)) true true).store
        true w2).writes = 0 ∧
    (addUserToGlobalChannel user now2
        (addUserToGlobalChannel user now (some (.channel c)) true true).store
        true w2).calls = [CbEvent.onSuccess (some true)] ∧
    (addUserToGlobalChannel user now2
        (addUserToGlobalChannel user now (some (.channel c)) true true).store
        true w2).store =
      (addUserToGlobalChannel user now (some (.channel c)) true true).store := by
  have h1 : addUserToGlobalChannel user now (some (.channel c)) true true =
      ⟨1, [CbEvent.onSuccess none],
        some (.channel
          ⟨c.id, (user.uid, getChannelUserFromUser user now) :: c.users⟩)⟩ := by
    simp [addUserToGlobalChannel, h]
  rw [h1]
  refine ⟨rfl, rfl, rfl, ?_, ?_, ?_⟩ <;>
    simp [addUserToGlobalChannel, List.lookup]

/-- Witness for C5 at a concrete user and an initially empty global
channel. -/
theorem addUserToGlobalChannel_idempotent_witness :
    (addUserToGlobalChannel ⟨"u1", "Ann"⟩ 3 (some (.channel ⟨"global", []⟩))
        true true).calls = [CbEvent.onSuccess none] ∧
    (addUserToGlobalChannel ⟨"u1", "Ann"⟩ 9
        (addUserToGlobalChannel ⟨"u1", "Ann"⟩ 3
          (some (.channel ⟨"global", []⟩)) true true).store
        true false).calls = [CbEvent.onSuccess (some true)] :=
  ⟨(addUserToGlobalChannel_idempotent ⟨"global", []⟩ ⟨"u1", "Ann"⟩ 3 9 false
      rfl).2.1,
   (addUserToGlobalChannel_idempotent ⟨"global", []⟩ ⟨"u1", "Ann"⟩ 3 9 false
      rfl).2.2.2.2.1⟩

/-- C6: for a subscribing user with a membership entry, the registered
listener query selects exactly the messages with `createdAt` at or after
the user's join timestamp for that channel (a permutation of the filtered
collection), ordered by creation time ascending, and every snapshot
notification re-parses the delivered documents and hands the full current
result set (not a diff) to the success continuation. -/
theorem subscribeUserToChannel_query_spec (user : User) (channel : Channel)
    (cu : ChannelUser) (h : channel.users.lookup user.uid = some cu) :
    subscribeUserToChannel user channel =
      Except.ok ⟨⟨cu.addedAt⟩, parseMessagesFromDocs⟩ ∧
    (∀ collection : List Message,
      (evalMessagesQuery ⟨cu.addedAt⟩ collection).Perm
        (collection.filter fun m => cu.addedAt ≤ m.createdAt) ∧
      List.Sorted byCreatedAt (evalMessagesQuery ⟨cu.addedAt⟩ collection)) ∧
    (∀ docs ms, extractMessages docs = some ms →
      parseMessagesFromDocs docs = [CbEvent.onSuccess ms]) ∧
    (∀ current : List Message,
      parseMessagesFromDocs (current.map MsgDoc.message) =
        [CbEvent.onSuccess current]) := by
  refine ⟨?_, ?_, ?_, ?_⟩
  · simp [subscribeUserToChannel, h]
  · intro collection
    constructor
    · simpa [evalMessagesQuery] using
        List.perm_insertionSort byCreatedAt
          (collection.filter fun m => cu.addedAt ≤ m.createdAt)
    · simpa [evalMessagesQuery] using
        List.sorted_insertionSort byCreatedAt
          (collection.filter fun m => cu.addedAt ≤ m.createdAt)
  · intro docs ms hex
    simp [parseMessagesFromDocs, hex]
  · intro current
    simp [parseMessagesFromDocs, extractMessages_map_message]

/-- Witness for C6 at a concrete member and a concrete snapshot. -/
theorem subscribeUserToChannel_query_spec_witness :
    subscribeUserToChannel ⟨"u1", "Ann"⟩
        ⟨"c1", [("u1", ⟨"u1", "Ann", 5⟩)]⟩ =
      Except.ok ⟨⟨5⟩, parseMessagesFromDocs⟩ ∧
    parseMessagesFromDocs [MsgDoc.message ⟨"m1", "hi", 7⟩] =
      [CbEvent.onSuccess [⟨"m1", "hi", 7⟩]] :=
  ⟨(subscribeUserToChannel_query_spec ⟨"u1", "Ann"⟩
      ⟨"c1", [("u1", ⟨"u1", "Ann", 5⟩)]⟩ ⟨"u1", "Ann", 5⟩ rfl).1,
   (subscribeUserToChannel_query_spec ⟨"u1", "Ann"⟩
      ⟨"c1", [("u1", ⟨"u1", "Ann", 5⟩)]⟩ ⟨"u1", "Ann", 5⟩ rfl).2.2.2
     [⟨"m1", "hi", 7⟩]⟩

/-- C8: for a `getUserChannels` call whose membership query resolves, a
single document failing the channel shape check fails the whole list
operation through the failure continuation (no partial result), and the
success continuation fires exactly when every returned document parses into
a channel record. -/
theorem getUserChannels_all_or_nothing (docs : List (Option ChannelDoc)) :
    ((∃ d ∈ docs, isChannel d = false) →
      (getUserChannels (Except.ok docs)).calls =
        [CbEvent.onFailure DEFAULT_ERROR]) ∧
    ((∀ d ∈ docs, isChannel d = true) →
      ∃ cs, (getUserChannels (Except.ok docs)).calls =
        [CbEvent.onSuccess cs]) ∧
    (∀ cs, (getUserChannels (Except.ok docs)).calls =
        [CbEvent.onSuccess cs] →
      ∀ d ∈ docs, isChannel d = true) := by
  refine ⟨?_, ?_, ?_⟩
  · rintro ⟨d, hd, hnd⟩
    have hnotall : ¬ (extractChannels docs).isSome = true := by
      rw [extractChannels_isSome_iff]
      intro hall
      rw [hall d hd] at hnd
      cases hnd
    have hnone : extractChannels docs = none := by
      cases hEx : extractChannels docs with
      | none => rfl
      | some cs => rw [hEx] at hnotall; simp at hnotall
    simp [getUserChannels, parseChannelsFromDocs, hnone]
  · intro hall
    have hsome : (extractChannels docs).isSome = true :=
      (extractChannels_isSome_iff docs).2 hall
    obtain ⟨cs, hcs⟩ := Option.isSome_iff_exists.1 hsome
    exact ⟨cs, by simp [getUserChannels, parseChannelsFromDocs, hcs]⟩
  · intro cs hcs
    cases hEx : extractChannels docs with
    | some cs2 => exact (extractChannels_isSome_iff docs).1 (by rw [hEx]; rfl)
    | none => simp [getUserChannels, parseChannelsFromDocs, hEx] at hcs

/-- Witness for C8: one malformed document among the query results fails
the whole call. -/
theorem getUserChannels_all_or_nothing_witness :
    (getUserChannels
        (Except.ok [some (.channel ⟨"g", []⟩), none])).calls =
      [CbEvent.onFailure DEFAULT_ERROR] :=
  (getUserChannels_all_or_nothing [some (.channel ⟨"g", []⟩), none]).1
    ⟨none, by simp, rfl⟩

/-- C4 counterexample: after setup (the channel façade initializes its
handles at module load), `addUserToGlobalChannel` settles its initial fetch
by rejection and invokes neither continuation — zero invocations, not
exactly one — because the fetch promise carries no rejection handler. -/
theorem addUser_rejected_fetch_drops_continuations :
    (addUserToGlobalChannel ⟨"u1", "Ann"⟩ 0 (some (.channel ⟨"global", []⟩))
        false true).calls = [] ∧
    (addUserToGlobalChannel ⟨"u1", "Ann"⟩ 0 (some (.channel ⟨"global", []⟩))
        false true).calls.length = 0 :=
  ⟨rfl, rfl⟩

/-- C4 (amended): after setup, every façade operation taking the
{onSuccess, onFailure} pair invokes at most one continuation, and exactly
one on each settled path, except two paths that invoke neither:
`sendMail` with type "verification" and no signed-in user (which issues no
backend call at all), and `addUserToGlobalChannel` when its initial fetch
rejects (the fetch promise has no rejection handler). -/
theorem continuation_pair_fires_once (st : SetupState)
    (h : isFirebaseSetup st = true) :
    (∀ popup, (loginWithGoogle st popup).calls.length = 1) ∧
    (∀ e p s, (loginWithEmail st e p s).calls.length = 1) ∧
    (∀ s, (loginAnonymously st s).calls.length = 1) ∧
    (∀ s, (logout st s).calls.length = 1) ∧
    (∀ e p s, (registerWithEmail st e p s).calls.length = 1) ∧
    (∀ u s, (deleteUser st (some u) s).calls.length = 1) ∧
    (∀ u s,
      (sendMail st (some u) MailType.verification s).calls.length = 1) ∧
    (∀ cu s,
      (sendMail st cu MailType.passwordReset s).calls.length = 1) ∧
    (∀ s, (sendMail st none MailType.verification s).calls = [] ∧
      (sendMail st none MailType.verification s).backendCalls = 0) ∧
    (∀ u email password p q,
      strTruthy email = true ∨ strTruthy password = true →
      (setCredentials st (some u) email password p q).calls.length = 1) ∧
    (∀ fetch, (getUserChannels fetch).calls.length = 1) ∧
    (∀ fetch, (getChannelMessages fetch).calls.length = 1) ∧
    (∀ add, (sendMessageToChannel add).calls.length = 1) ∧
    (∀ user now store w,
      (addUserToGlobalChannel user now store true w).calls.length = 1) ∧
    (∀ user now store w,
      (addUserToGlobalChannel user now store false w).calls = []) := by
  refine ⟨?_, ?_, ?_, ?_, ?_, ?_, ?_, ?_, ?_, ?_, ?_, ?_, ?_, ?_, ?_⟩
  · intro popup
    cases popup with
    | ok r =>
      obtain ⟨u, cred⟩ := r
      cases cred <;> simp [loginWithGoogle, h]
    | error e => simp [loginWithGoogle, h]
  · intro e p s
    simp [loginWithEmail, h, settleUser_length]
  · intro s
    simp [loginAnonymously, h, settleUser_length]
  · intro s
    simp [logout, h, settleUnit_length]
  · intro e p s
    simp [registerWithEmail, h, settleUser_length]
  · intro u s
    simp [deleteUser, h, settleUnit_length]
  · intro u s
    simp [sendMail, h, settleUnit_length]
  · intro cu s
    cases cu <;> simp [sendMail, h, settleUnit_length]
  · intro s
    simp [sendMail, h]
  · intro u email password p q hor
    by_cases he : strTruthy email = true <;>
      by_cases hp : strTruthy password = true
    · simp [setCredentials, h, he, hp, settleCredentialUpdate_length]
    · simp [setCredentials, h, he, hp, settleCredentialUpdate_length]
    · simp [setCredentials, h, he, hp, settleCredentialUpdate_length]
    · rcases hor with h1 | h1
      · exact absurd h1 he
      · exact absurd h1 hp
  · intro fetch
    cases fetch with
    | ok docs =>
      cases hEx : extractChannels docs <;>
        simp [getUserChannels, parseChannelsFromDocs, hEx]
    | error e => simp [getUserChannels]
  · intro fetch
    cases fetch with
    | ok docs =>
      cases hEx : extractMessages docs <;>
        simp [getChannelMessages, parseMessagesFromDocs, hEx]
    | error e => simp [getChannelMessages]
  · intro add
    cases add <;> simp [sendMessageToChannel]
  · intro user now store w
    cases store with
    | none => simp [addUserToGlobalChannel]
    | some cd =>
      cases cd with
      | malformed => simp [addUserToGlobalChannel]
      | channel c =>
        by_cases hmem : (c.users.lookup user.uid).isSome = true <;>
          cases w <;> simp [addUserToGlobalChannel, hmem]
  · intro user now store w
    simp [addUserToGlobalChannel]

/-- Witness for the amended C4 at a fully populated handle set and a
rejected popup sign-in. -/
theorem continuation_pair_fires_once_witness :
    (loginWithGoogle ⟨true, true, true⟩
        (Except.error ⟨none, none⟩)).calls.length = 1 :=
  (continuation_pair_fires_once ⟨true, true, true⟩ rfl).1
    (Except.error ⟨none, none⟩)

end SassyFire
